import Mathlib

/-
Verification of the Jira work-item assistant backend.

The embedding follows the source files:
  - src/middleware.ts : authMiddleware
  - src/routes.ts     : route handlers and buildPrompt
  - src/openai.ts     : generate

Route handlers are modelled as pure functions from the request data and a
stub of the upstream issue tracker to the list of upstream HTTP calls the
handler issues together with the HTTP response it sends.  JavaScript
truthiness of optional string values (undefined and "" are falsy) is made
explicit through the helper truthy below.
-/

namespace JiraAssistant

/-- JS truthiness of an optional string value: undefined (none) and the
empty string are falsy, every other string is truthy. -/
def truthy : Option String → Bool
  | none => false
  | some s => s != ""

/-- JS string coercion as performed by template literals: undefined
interpolates as the text "undefined", a string interpolates as itself. -/
def jsStr : Option String → String
  | none => "undefined"
  | some s => s

/-- JS String.prototype.startsWith, rendered executably over the character
list: s starts with p when the first p.length characters of s are p.
(String.startsWith of the standard library is not kernel-reducible, so the
prefix test is spelled out.) -/
def strStartsWith (s p : String) : Bool :=
  s.toList.take p.toList.length == p.toList

/-- One HTTP call to the Jira REST API as issued by the handlers in
routes.ts.  The deleteIssue operation is part of the Jira API surface but
is never issued by the code (no rollback); theorems below prove this. -/
inductive JiraCall
  | createIssue (projectKey summary : String) (description : Option String) (issuetype : String)
  | linkIssues (linkType inwardIssue outwardIssue : String)
  | updateIssue (issueKey text : String)
  | deleteIssue (issueKey : String)
deriving DecidableEq

/-- Body of an HTTP response sent by a handler. -/
inductive RespBody
  | err (msg : String)
  | createdList (keys : List String)
  | successFlag
  | issueBody (key id type title description : String)
  | output (text : String)
deriving DecidableEq

/-- HTTP response: status code and JSON body. -/
structure HttpOut where
  status : Nat
  body : RespBody
deriving DecidableEq

/-- src/middleware.ts authMiddleware: when the Authorization header value is
truthy and does not start with "Bearer ", respond 401 with an error body;
otherwise call next().  Returns some response when the request is rejected,
none when it falls through to the handler. -/
def authMiddleware : Option String → Option HttpOut
  | some a =>
      if a != "" && !(strStartsWith a "Bearer ") then
        some ⟨401, RespBody.err "Invalid auth format"⟩
      else
        none
  | none => none

/-- The five routes registered on the router in src/routes.ts. -/
inductive Route
  | getIssue
  | analyze
  | createTasks
  | createTestcases
  | updateDescription
deriving DecidableEq

/-- Which routes register authMiddleware in src/routes.ts: lines 46, 86,
108 and 179 pass authMiddleware, line 238 (update-description) does not. -/
def routeHasAuthGate : Route → Bool
  | Route.getIssue => true
  | Route.analyze => true
  | Route.createTasks => true
  | Route.createTestcases => true
  | Route.updateDescription => false

/-- Express dispatch for one request: when the route registered the auth
gate, run it first and stop with its response if it rejects; otherwise run
the handler. -/
def dispatch (auth : Option String) (r : Route) (handler : Unit → HttpOut) : HttpOut :=
  if routeHasAuthGate r then
    match authMiddleware auth with
    | some resp => resp
    | none => handler ()
  else
    handler ()

/-- Fixed middle part of the user-story template returned by buildPrompt
for the action "description" (src/routes.ts lines 332 to 402), reproduced
verbatim; literal braces do not occur in it. -/
def userStoryGuidelines : String :=
  "You are an expert Agile Product Owner assistant responsible for generating high-quality, implementation-ready user stories.\n"
  ++ "\n"
  ++ "Your task is to generate a complete user story based on the provided feature description.\n"
  ++ "\n"
  ++ "You MUST strictly follow the structure and rules below.\n"
  ++ "\n"
  ++ "# SER STORY FORMAT (MANDATORY) \n"
  ++ "User Story must strictly follow this format:\n"
  ++ "\n"
  ++ "### Description:\n"
  ++ "    As a **<user persona>**,\n"
  ++ "    **I want** <goal / capability>,\n"
  ++ "    **So that** <business value / benefit>.\n"
  ++ "\n"
  ++ "### Acceptance Criteria:\n"
  ++ "    Guidelines for Acceptance Criteria:\n"
  ++ "    1. Ensure that each criterion is testable and measurable.\n"
  ++ "    2. Write criteria in the context of the user persona described in the problem.\n"
  ++ "    3. You MUST use EITHER:\n"
  ++ "        - Gherkin syntax (Given, When, Then) format for behavioral scenarios, OR\n"
  ++ "        - Clear, concise bullet points for testable outcomes.\n"
  ++ "    4. DO NOT use both Gherkin and bullet points together.\n"
  ++ "    5. Avoid generic statements such as:\n"
  ++ "        - Ensure TAD and TS are adhered\n"
  ++ "        - Delivered solution does not generate additional issues on servers and browser\n"
  ++ "    6. Additional Gherkin scenarios for other user personas can be listed separately if necessary.\n"
  ++ "\n"
  ++ "\n"
  ++ "### IMPORTANT INSTRUCTIONS:\n"
  ++ "    1. Expand the context clearly and professionally.\n"
  ++ "    2. Provide sufficient functional clarity for engineering implementation.\n"
  ++ "    3. Include constraints, scope boundaries, and relevant business context.\n"
  ++ "    4. Keep it structured and concise.\n"
  ++ "    5. Do NOT include acceptance criteria inside the description.\n"
  ++ "    6. Do NOT include implementation-level technical steps unless explicitly required.\n"
  ++ "\n"
  ++ "### QUALITY CONSTRAINTS:\n"
  ++ "    1. The story must be small enough to fit within a single sprint of 10 days (2 work weeks).\n"
  ++ "    2. Acceptance criteria must remove ambiguity.\n"
  ++ "    3. Avoid vague terms such as fast, user-friendly, optimized, etc.\n"
  ++ "    4. Do not assume hidden requirements.\n"
  ++ "    5. If details are missing, make reasonable assumptions and reflect them clearly in the acceptance criteria.\n"
  ++ "    6. Output must be clean and ready for direct use in Jira, Azure DevOps, or similar tools.\n"
  ++ "\n"
  ++ "### Follow the given example format strictly:\n"
  ++ "\n"
  ++ "Example Input:\n"
  ++ "  Title: \"Finalize Output Schema and Spec Kit Execution Framework for FAB Extraction Agents\"\n"
  ++ "  Issue Type: Story\n"
  ++ "Example Output:\n"
  ++ "  ### Description:\n"
  ++ "    As a **Developer**,\n"
  ++ "    **I want** to finalize the output JSON schema for Loan and Real Estate agents after FAB-driven extraction,\n"
  ++ "    **So that** the Spec Kit prompt lifecycle executes as a single cohesive flow and the system produces consistent, deterministic outputs with reliable document handling.\n"
  ++ "\n"
  ++ "  ### Acceptance Criteria:\n"
  ++ "  Scenario 1: Output JSON schema is finalized and enforced\n"
  ++ "      Given the FAB agent completes execution and extraction is successful\n"
  ++ "      When the agent produces its final response\n"
  ++ "      Then the response strictly conforms to the approved output JSON schema\n"
  ++ "      And the schema remains consistent across both Loan and Real Estate agent types\n"
  ++ "      And no undocumented or extra fields are present\n"
  ++ "\n"
  ++ "    Scenario 2: Spec Kit prompt framework executes as a unified lifecycle\n"
  ++ "      Given a valid input document or payload\n"
  ++ "      When the Spec Kit lifecycle runs using the Constitution, Specify, Plan, Task, and Implement prompts\n"
  ++ "      Then each prompt executes in the defined order\n"
  ++ "      And responsibilities remain clearly separated across prompts\n"
  ++ "      And code generation completes successfully\n"

/-- src/routes.ts buildPrompt: a switch over the action name; a JS switch
over string literals is an equality chain, rendered here as nested ifs.
Template literals are rendered as string concatenation; literal brace
characters of the JSON examples are written with \x7b and \x7d escapes. -/
def buildPrompt (title desc type action : String) : String :=
  if action = "tasks" then
    "\nBreak this Jira " ++ type ++ " into implementation tasks.\n\nRules:\nReturn ONLY valid JSON:\n\x7b\n  \"tasks\": [\n    \x7b \"title\": \"\", \"description\": \"\" \x7d\n  ]\n\x7d\n\nTitle: " ++ title ++ "\nDescription: " ++ desc ++ "\n"
  else if action = "testcases" then
    "\nGenerate Jira test cases.\n\nReturn ONLY JSON:\n\x7b\n  \"testCases\": [\n    \x7b\n      \"title\": \"\",\n      \"steps\": [\x7b \"action\": \"\", \"expected\": \"\" \x7d]\n    \x7d\n  ]\n\x7d\n\nTitle: " ++ title ++ "\n"
  else if action = "criteria" then
    "Generate acceptance criteria for Jira Story: " ++ title
  else if action = "description" then
    type ++ ": " ++ title ++ " \n\n\"\"\"\n" ++ userStoryGuidelines ++ "\"\"\"\n\n      \n      "
  else if action = "bug" then
    "Summarize this Jira bug clearly: " ++ desc
  else
    title

/-- The five action values recognized by the switch in buildPrompt. -/
def recognizedActions : List String :=
  ["tasks", "testcases", "criteria", "description", "bug"]

/-- JS issueKey.split("-")[0]: the segment of the key before its first "-"
separator, the whole key when it contains none.  (String.splitOn of the
standard library is not kernel-reducible, so the first split segment is
rendered directly: split("-")[0] is the longest prefix free of "-".) -/
def projectKeyOf (key : String) : String :=
  String.mk (key.toList.takeWhile (fun c => c != Char.ofNat 45))

/-- Stub of the upstream issue tracker, the oracle for the calls a handler
issues during one request: the n-th create-issue call of the request either
fails (none) or returns the key of the created issue, and the n-th
issue-link call succeeds or fails.  There is exactly one create call and at
most one link call per list entry, so a single index suffices. -/
structure Tracker where
  createKey : Nat → Option String
  linkOk : Nat → Bool

/-- One entry of the tasks array of a create-tasks request body. -/
structure TaskEntry where
  title : String
  description : String
deriving DecidableEq

/-- Loop of the create-tasks handler (src/routes.ts lines 119 to 166): per
entry, POST a create-issue call with the parent project key, the entry
title as summary, the entry description wrapped in a one-paragraph rich
document, and issue type Task; on create success, POST a Relates link from
the new issue to the parent.  The first upstream failure throws, so the
loop stops there.  Returns the calls issued, the keys of the issues the
tracker actually created, and whether the loop completed. -/
def createTasksLoop (tr : Tracker) (projectKey issueKey : String) :
    List TaskEntry → Nat → List JiraCall × List String × Bool
  | [], _ => ([], [], true)
  | task :: rest, n =>
    let c := JiraCall.createIssue projectKey task.title (some task.description) "Task"
    match tr.createKey n with
    | none => ([c], [], false)
    | some newIssueKey =>
      let l := JiraCall.linkIssues "Relates" newIssueKey issueKey
      if tr.linkOk n then
        let out := createTasksLoop tr projectKey issueKey rest (n + 1)
        (c :: l :: out.1, newIssueKey :: out.2.1, out.2.2)
      else
        ([c, l], [newIssueKey], false)

/-- create-tasks handler (src/routes.ts lines 108 to 173): reject 400 when
issueKey is falsy or tasks is not an array; otherwise derive the project
key as issueKey.split("-")[0] and run the loop; answer 200 with the created
keys on completion, 500 on a failure. -/
def createTasksHandler (tr : Tracker) (issueKey : Option String)
    (tasks : Option (List TaskEntry)) : List JiraCall × List String × HttpOut :=
  if !truthy issueKey || tasks.isNone then
    ([], [], ⟨400, RespBody.err "Invalid payload"⟩)
  else
    let key := jsStr issueKey
    let projectKey := projectKeyOf key
    let out := createTasksLoop tr projectKey key (tasks.getD []) 0
    if out.2.2 then
      (out.1, out.2.1, ⟨200, RespBody.createdList out.2.1⟩)
    else
      (out.1, out.2.1, ⟨500, RespBody.err "Task creation failed"⟩)

/-- One step of a test-case entry; the handler never reads it. -/
structure TCStep where
  action : String
  expected : String
deriving DecidableEq

/-- One entry of the testCases array of a create-testcases request body. -/
structure TestCaseEntry where
  title : String
  steps : List TCStep
deriving DecidableEq

/-- Loop of the create-testcases handler (src/routes.ts lines 189 to 224):
per entry, POST a create-issue call with the parent project key, the entry
title as summary and issue type Test — no description field — then on
success POST a Relates link to the parent; stops at the first failure. -/
def createTestcasesLoop (tr : Tracker) (projectKey issueKey : String) :
    List TestCaseEntry → Nat → List JiraCall × Bool
  | [], _ => ([], true)
  | tc :: rest, n =>
    let c := JiraCall.createIssue projectKey tc.title none "Test"
    match tr.createKey n with
    | none => ([c], false)
    | some newIssueKey =>
      let l := JiraCall.linkIssues "Relates" newIssueKey issueKey
      if tr.linkOk n then
        let out := createTestcasesLoop tr projectKey issueKey rest (n + 1)
        (c :: l :: out.1, out.2)
      else
        ([c, l], false)

/-- create-testcases handler (src/routes.ts lines 179 to 231). -/
def createTestcasesHandler (tr : Tracker) (issueKey : Option String)
    (testCases : Option (List TestCaseEntry)) : List JiraCall × HttpOut :=
  if !truthy issueKey || testCases.isNone then
    ([], ⟨400, RespBody.err "Invalid payload"⟩)
  else
    let key := jsStr issueKey
    let projectKey := projectKeyOf key
    let out := createTestcasesLoop tr projectKey key (testCases.getD []) 0
    if out.2 then
      (out.1, ⟨200, RespBody.successFlag⟩)
    else
      (out.1, ⟨500, RespBody.err "Test case creation failed"⟩)

/-- update-description handler (src/routes.ts lines 238 to 276): reject 400
when issueKey or description is falsy — the empty string included —
otherwise PUT the new one-paragraph rich-document description; updateOk
says whether the upstream PUT succeeds. -/
def updateDescriptionHandler (updateOk : Bool) (issueKey description : Option String) :
    List JiraCall × HttpOut :=
  if !truthy issueKey || !truthy description then
    ([], ⟨400, RespBody.err "Invalid payload"⟩)
  else
    let call := JiraCall.updateIssue (jsStr issueKey) (jsStr description)
    if updateOk then
      ([call], ⟨200, RespBody.successFlag⟩)
    else
      ([call], ⟨500, RespBody.err "Update failed"⟩)

/-- Leaf of the rich-document description: a text node whose text may be
absent. -/
structure TextNode where
  text : Option String
deriving DecidableEq

/-- Paragraph node of the rich-document description. -/
structure ParaNode where
  content : Option (List TextNode)
deriving DecidableEq

/-- Rich-document description field of an issue. -/
structure DocDesc where
  content : Option (List ParaNode)
deriving DecidableEq

/-- Fields of an upstream issue response. -/
structure IssueFields where
  summary : String
  description : Option DocDesc
  issuetypeName : String
deriving DecidableEq

/-- Upstream response of GET issue. -/
structure JiraIssueResponse where
  id : String
  key : String
  fields : IssueFields
deriving DecidableEq

/-- src/routes.ts line 71: the optional chain
description?.content?.[0]?.content?.[0]?.text with a final fallback to ""
(the JS x || "" also maps an empty text to "", which coincides). -/
def extractDescription (d : Option DocDesc) : String :=
  ((((d.bind DocDesc.content).bind List.head?).bind ParaNode.content).bind List.head?
    |>.bind TextNode.text).getD ""

/-- GET issue handler (src/routes.ts lines 46 to 78): 400 on a falsy key,
500 when the upstream fetch throws, otherwise the five-field body. -/
def getIssueHandler (issueKey : Option String) (upstream : Option JiraIssueResponse) : HttpOut :=
  if !truthy issueKey then
    ⟨400, RespBody.err "Missing issue key"⟩
  else
    match upstream with
    | none => ⟨500, RespBody.err "Failed to fetch issue"⟩
    | some issue =>
        ⟨200, RespBody.issueBody issue.key issue.id issue.fields.issuetypeName
          issue.fields.summary (extractDescription issue.fields.description)⟩

/-- Environment variables read by src/openai.ts generate. -/
structure GenEnv where
  azureOpenaiDeploymentName : Option String
  azureOpenaiDeployment : Option String

/-- Message of one chat completion choice. -/
structure ChatMessage where
  content : Option String
deriving DecidableEq

/-- One chat completion choice. -/
structure ChatChoice where
  message : Option ChatMessage
deriving DecidableEq

/-- Chat completion response; the choices array may be absent. -/
structure ChatCompletion where
  choices : Option (List ChatChoice)
deriving DecidableEq

/-- Outcome of generate: throw before any remote call, rethrow a remote
error, or return text. -/
inductive GenResult
  | missingDeployment
  | remoteError
  | ok (text : String)
deriving DecidableEq

/-- src/openai.ts generate: deployment is the JS disjunction of the two env
vars; when it is falsy, throw without any remote call; otherwise issue the
call (api none models a failing remote call whose error is rethrown) and
return choices?.[0]?.message?.content || "".  The Bool records whether a
remote call was issued. -/
def generate (env : GenEnv) (api : Option ChatCompletion) : Bool × GenResult :=
  let deployment :=
    if truthy env.azureOpenaiDeploymentName then env.azureOpenaiDeploymentName
    else env.azureOpenaiDeployment
  if !truthy deployment then
    (false, GenResult.missingDeployment)
  else
    match api with
    | none => (true, GenResult.remoteError)
    | some completion =>
        (true, GenResult.ok
          ((((completion.choices.bind List.head?).bind ChatChoice.message).bind
              ChatMessage.content).getD ""))

/-- What the analyze handler (src/routes.ts lines 86 to 102) does with a
request body: 400 when title or action is falsy, otherwise call the
generation client with the built prompt.  The body fields reach buildPrompt
only through template interpolation (and the switch scrutinee), so JS
coercion of undefined to the text "undefined" is applied at the boundary;
for the switch scrutinee the coercion is harmless since "undefined" is not
a recognized action and a falsy action never reaches buildPrompt. -/
inductive AnalyzeStep
  | badRequest
  | callGenerate (prompt : String)
deriving DecidableEq

/-- analyze handler, modelling only the choice of prompt passed on. -/
def analyzeHandler (title description type action : Option String) : AnalyzeStep :=
  if !truthy title || !truthy action then
    AnalyzeStep.badRequest
  else
    AnalyzeStep.callGenerate (buildPrompt (jsStr title) (jsStr description) (jsStr type) (jsStr action))

/-- Whether a call is a create-issue call. -/
def JiraCall.isCreate : JiraCall → Bool
  | JiraCall.createIssue _ _ _ _ => true
  | _ => false

/-- Whether a call is a delete-issue call. -/
def JiraCall.isDelete : JiraCall → Bool
  | JiraCall.deleteIssue _ => true
  | _ => false

/-- Number of create-issue calls in a trace. -/
def countCreates (calls : List JiraCall) : Nat :=
  calls.countP (fun c => c.isCreate)

/-- The string pat occurs verbatim inside s. -/
def containsSubstring (s pat : String) : Prop :=
  ∃ pre suf, s = pre ++ pat ++ suf

end JiraAssistant
namespace JiraAssistant

theorem append_left_ne_empty (a b : String) (h : a ≠ "") : a ++ b ≠ "" := by
  intro hab
  apply h
  have hd := congrArg String.data hab
  simp only [String.data_append] at hd
  have : a.data = [] := by
    have : a.data ++ b.data = [] := by simpa using hd
    exact (List.append_eq_nil.mp this).1
  cases a
  simp_all

theorem append_right_ne_empty (a b : String) (h : b ≠ "") : a ++ b ≠ "" := by
  intro hab
  apply h
  have hd := congrArg String.data hab
  simp only [String.data_append] at hd
  have : b.data = [] := by
    have : a.data ++ b.data = [] := by simpa using hd
    exact (List.append_eq_nil.mp this).2
  cases b
  simp_all

theorem createTasksLoop_create_projectKey (tr : Tracker) (pk ik : String)
    (ts : List TaskEntry) :
    ∀ (n : Nat) (p s : String) (d : Option String) (it : String),
      JiraCall.createIssue p s d it ∈ (createTasksLoop tr pk ik ts n).1 → p = pk := by
  induction ts with
  | nil => intro n p s d it h; simp [createTasksLoop] at h
  | cons t rest ih =>
      intro n p s d it h
      simp only [createTasksLoop] at h
      cases hck : tr.createKey n with
      | none =>
          rw [hck] at h
          simp at h
          exact h.1
      | some k =>
          rw [hck] at h
          by_cases hl : tr.linkOk n
          · simp [hl] at h
            rcases h with h | h
            · exact h.1
            · exact ih (n + 1) p s d it h
          · simp [hl] at h
            exact h.1

theorem createTasksLoop_no_delete (tr : Tracker) (pk ik : String)
    (ts : List TaskEntry) :
    ∀ (n : Nat) (c : JiraCall), c ∈ (createTasksLoop tr pk ik ts n).1 → c.isDelete = false := by
  induction ts with
  | nil => intro n c h; simp [createTasksLoop] at h
  | cons t rest ih =>
      intro n c h
      simp only [createTasksLoop] at h
      cases hck : tr.createKey n with
      | none =>
          rw [hck] at h
          simp at h
          simp [h, JiraCall.isDelete]
      | some k =>
          rw [hck] at h
          by_cases hl : tr.linkOk n
          · simp [hl] at h
            rcases h with h | h | h
            · simp [h, JiraCall.isDelete]
            · simp [h, JiraCall.isDelete]
            · exact ih (n + 1) c h
          · simp [hl] at h
            rcases h with h | h
            · simp [h, JiraCall.isDelete]
            · simp [h, JiraCall.isDelete]

end JiraAssistant
namespace JiraAssistant

theorem createTasksLoop_failure (tr : Tracker) (pk ik : String) :
    ∀ (pre : List TaskEntry) (t : TaskEntry) (post : List TaskEntry) (n : Nat),
      (∀ i, i < pre.length → (tr.createKey (n + i)).isSome = true ∧ tr.linkOk (n + i) = true) →
      (tr.createKey (n + pre.length) = none ∨ tr.linkOk (n + pre.length) = false) →
      (createTasksLoop tr pk ik (pre ++ t :: post) n).2.2 = false ∧
        countCreates (createTasksLoop tr pk ik (pre ++ t :: post) n).1 = pre.length + 1 := by
  intro pre
  induction pre with
  | nil =>
      intro t post n hok hfail
      simp only [List.length_nil, Nat.add_zero] at hfail
      rcases hfail with hf | hf
      · simp [createTasksLoop, hf, countCreates, JiraCall.isCreate]
      · cases hck : tr.createKey n with
        | none => simp [createTasksLoop, hck, countCreates, JiraCall.isCreate]
        | some k => simp [createTasksLoop, hck, hf, countCreates, JiraCall.isCreate]
  | cons p pre ih =>
      intro t post n hok hfail
      have h0 := hok 0 (Nat.succ_pos _)
      simp only [Nat.add_zero] at h0
      obtain ⟨hcs, hls⟩ := h0
      obtain ⟨k, hk⟩ := Option.isSome_iff_exists.mp hcs
      have hok' : ∀ i, i < pre.length →
          (tr.createKey (n + 1 + i)).isSome = true ∧ tr.linkOk (n + 1 + i) = true := by
        intro i hi
        have h := hok (i + 1) (by simpa using Nat.succ_lt_succ hi)
        have harith : n + (i + 1) = n + 1 + i := by omega
        rwa [harith] at h
      have hfail' : tr.createKey (n + 1 + pre.length) = none ∨
          tr.linkOk (n + 1 + pre.length) = false := by
        have harith : n + (p :: pre).length = n + 1 + pre.length := by
          simp [List.length_cons]; omega
        rwa [harith] at hfail
      have hrec := ih t post (n + 1) hok' hfail'
      constructor
      · simp [createTasksLoop, hk, hls, hrec.1]
      · simp [createTasksLoop, hk, hls, countCreates, List.countP_cons, JiraCall.isCreate] at hrec ⊢
        omega

theorem createTestcasesLoop_create_shape (tr : Tracker) (pk ik : String)
    (ts : List TestCaseEntry) :
    ∀ (n : Nat) (p s : String) (d : Option String) (it : String),
      JiraCall.createIssue p s d it ∈ (createTestcasesLoop tr pk ik ts n).1 →
        p = pk ∧ d = none ∧ it = "Test" := by
  induction ts with
  | nil => intro n p s d it h; simp [createTestcasesLoop] at h
  | cons t rest ih =>
      intro n p s d it h
      simp only [createTestcasesLoop] at h
      cases hck : tr.createKey n with
      | none =>
          rw [hck] at h
          simp at h
          exact ⟨h.1, h.2.2⟩
      | some k =>
          rw [hck] at h
          by_cases hl : tr.linkOk n
          · simp [hl] at h
            rcases h with h | h
            · exact ⟨h.1, h.2.2⟩
            · exact ih (n + 1) p s d it h
          · simp [hl] at h
            exact ⟨h.1, h.2.2⟩

theorem createTestcasesLoop_titles_only (tr : Tracker) (pk ik : String) :
    ∀ (ts1 ts2 : List TestCaseEntry) (n : Nat),
      ts1.map TestCaseEntry.title = ts2.map TestCaseEntry.title →
      createTestcasesLoop tr pk ik ts1 n = createTestcasesLoop tr pk ik ts2 n := by
  intro ts1
  induction ts1 with
  | nil =>
      intro ts2 n h
      cases ts2 with
      | nil => rfl
      | cons b bs => simp at h
  | cons a as ih =>
      intro ts2 n h
      cases ts2 with
      | nil => simp at h
      | cons b bs =>
          simp only [List.map_cons, List.cons.injEq] at h
          obtain ⟨hab, hrest⟩ := h
          simp only [createTestcasesLoop, hab, ih bs (n + 1) hrest]

end JiraAssistant
namespace JiraAssistant

theorem truthy_some_of_ne (k : String) (hk : k ≠ "") : truthy (some k) = true := by
  simp [truthy, hk]

theorem createTasksHandler_calls (tr : Tracker) (k : String) (hk : k ≠ "")
    (ts : List TaskEntry) :
    (createTasksHandler tr (some k) (some ts)).1 =
      (createTasksLoop tr (projectKeyOf k) k ts 0).1 := by
  simp only [createTasksHandler, truthy_some_of_ne k hk, Option.isNone_some, Bool.not_true,
    Bool.false_or, Bool.not_false, Bool.false_eq_true, if_false, jsStr, Option.getD_some]
  split <;> rfl

theorem createTestcasesHandler_calls (tr : Tracker) (k : String) (hk : k ≠ "")
    (ts : List TestCaseEntry) :
    (createTestcasesHandler tr (some k) (some ts)).1 =
      (createTestcasesLoop tr (projectKeyOf k) k ts 0).1 := by
  simp only [createTestcasesHandler, truthy_some_of_ne k hk, Option.isNone_some, Bool.not_true,
    Bool.false_or, Bool.not_false, Bool.false_eq_true, if_false, jsStr, Option.getD_some]
  split <;> rfl

end JiraAssistant
namespace JiraAssistant

theorem createTasksHandler_resp_of_failure (tr : Tracker) (k : String) (hk : k ≠ "")
    (ts : List TaskEntry)
    (hfail : (createTasksLoop tr (projectKeyOf k) k ts 0).2.2 = false) :
    (createTasksHandler tr (some k) (some ts)).2.2 =
      ⟨500, RespBody.err "Task creation failed"⟩ := by
  simp only [createTasksHandler, truthy_some_of_ne k hk, Option.isNone_some, Bool.not_true,
    Bool.false_or, Bool.not_false, Bool.false_eq_true, if_false, jsStr, Option.getD_some, hfail]

/-- C1: every create-issue call made by the create-tasks and the
create-testcases handlers uses as its project key exactly the first segment
of the parent issue key split on "-", so every issue created during such a
request belongs to the project of the parent key. -/
theorem create_calls_use_parent_project_key
    (tr tr2 : Tracker) (k : String) (hk : k ≠ "")
    (tasks : List TaskEntry) (tcs : List TestCaseEntry)
    (p1 s1 : String) (d1 : Option String) (it1 : String)
    (p2 s2 : String) (d2 : Option String) (it2 : String)
    (h1 : JiraCall.createIssue p1 s1 d1 it1 ∈ (createTasksHandler tr (some k) (some tasks)).1)
    (h2 : JiraCall.createIssue p2 s2 d2 it2 ∈ (createTestcasesHandler tr2 (some k) (some tcs)).1) :
    p1 = projectKeyOf k ∧ p2 = projectKeyOf k := by
  rw [createTasksHandler_calls tr k hk tasks] at h1
  rw [createTestcasesHandler_calls tr2 k hk tcs] at h2
  exact ⟨createTasksLoop_create_projectKey tr _ k tasks 0 p1 s1 d1 it1 h1,
    (createTestcasesLoop_create_shape tr2 _ k tcs 0 p2 s2 d2 it2 h2).1⟩

theorem create_calls_use_parent_project_key_witness :
    "PROJ" = projectKeyOf "PROJ-7" ∧ "PROJ" = projectKeyOf "PROJ-7" :=
  create_calls_use_parent_project_key
    ⟨fun _ => some "NEW-1", fun _ => true⟩ ⟨fun _ => some "NEW-2", fun _ => true⟩
    "PROJ-7" (by decide) [⟨"T1", "D1"⟩] [⟨"TC1", []⟩]
    "PROJ" "T1" (some "D1") "Task" "PROJ" "TC1" none "Test"
    (by decide) (by decide)

/-- C2: when, on a create-tasks request, the create or link call of entry
N fails after entries 1..N-1 succeeded, the handler stops after exactly N
create calls, never issues a delete call (no rollback), and answers 500
with an error body; concretely, with two tasks and a link failure on the
first, exactly one issue has been created and the response is a 500. -/
theorem createTasks_partial_failure_no_rollback
    (tr : Tracker) (k : String) (hk : k ≠ "")
    (pre : List TaskEntry) (t : TaskEntry) (post : List TaskEntry)
    (hok : ∀ i, i < pre.length → (tr.createKey i).isSome = true ∧ tr.linkOk i = true)
    (hfail : tr.createKey pre.length = none ∨ tr.linkOk pre.length = false) :
    (createTasksHandler tr (some k) (some (pre ++ t :: post))).2.2 =
        ⟨500, RespBody.err "Task creation failed"⟩
    ∧ countCreates (createTasksHandler tr (some k) (some (pre ++ t :: post))).1 = pre.length + 1
    ∧ (createTasksHandler tr (some k) (some (pre ++ t :: post))).1.all (fun c => !c.isDelete) = true
    ∧ (createTasksHandler ⟨fun n => some ("NEW-" ++ toString (n + 1)), fun _ => false⟩
        (some "PROJ-1") (some [⟨"T1", "D1"⟩, ⟨"T2", "D2"⟩])).2.1.length = 1
    ∧ (createTasksHandler ⟨fun n => some ("NEW-" ++ toString (n + 1)), fun _ => false⟩
        (some "PROJ-1") (some [⟨"T1", "D1"⟩, ⟨"T2", "D2"⟩])).2.2.status = 500 := by
  have hok0 : ∀ i, i < pre.length →
      (tr.createKey (0 + i)).isSome = true ∧ tr.linkOk (0 + i) = true := by
    intro i hi
    simpa using hok i hi
  have hfail0 : tr.createKey (0 + pre.length) = none ∨ tr.linkOk (0 + pre.length) = false := by
    simpa using hfail
  have hloop := createTasksLoop_failure tr (projectKeyOf k) k pre t post 0 hok0 hfail0
  refine ⟨createTasksHandler_resp_of_failure tr k hk _ hloop.1, ?_, ?_, by decide, by decide⟩
  · rw [createTasksHandler_calls tr k hk]
    exact hloop.2
  · rw [createTasksHandler_calls tr k hk]
    rw [List.all_eq_true]
    intro c hc
    simp [createTasksLoop_no_delete tr (projectKeyOf k) k _ 0 c hc]

theorem createTasks_partial_failure_no_rollback_witness :
    ((createTasksHandler ⟨fun _ => none, fun _ => true⟩ (some "PROJ-1")
        (some [⟨"T1", "D1"⟩])).2.2 = ⟨500, RespBody.err "Task creation failed"⟩)
    ∧ countCreates (createTasksHandler ⟨fun _ => none, fun _ => true⟩ (some "PROJ-1")
        (some [⟨"T1", "D1"⟩])).1 = 1
    ∧ (createTasksHandler ⟨fun _ => none, fun _ => true⟩ (some "PROJ-1")
        (some [⟨"T1", "D1"⟩])).1.all (fun c => !c.isDelete) = true
    ∧ (createTasksHandler ⟨fun n => some ("NEW-" ++ toString (n + 1)), fun _ => false⟩
        (some "PROJ-1") (some [⟨"T1", "D1"⟩, ⟨"T2", "D2"⟩])).2.1.length = 1
    ∧ (createTasksHandler ⟨fun n => some ("NEW-" ++ toString (n + 1)), fun _ => false⟩
        (some "PROJ-1") (some [⟨"T1", "D1"⟩, ⟨"T2", "D2"⟩])).2.2.status = 500 :=
  createTasks_partial_failure_no_rollback ⟨fun _ => none, fun _ => true⟩ "PROJ-1" (by decide)
    [] ⟨"T1", "D1"⟩ [] (fun i h => absurd h (Nat.not_lt_zero i)) (Or.inl rfl)

end JiraAssistant
namespace JiraAssistant

theorem buildPrompt_unrecognized (title desc ty a : String)
    (ha : a ∉ recognizedActions) : buildPrompt title desc ty a = title := by
  simp only [recognizedActions, List.mem_cons, List.not_mem_nil, or_false, not_or] at ha
  obtain ⟨h1, h2, h3, h4, h5⟩ := ha
  simp [buildPrompt, h1, h2, h3, h4, h5]

/-- C3: buildPrompt is a total function; on each of the five recognized
actions it returns a non-empty string whatever the other arguments are; on
every unrecognized action it returns exactly the title argument unchanged
(hence a non-empty string whenever the title is non-empty). -/
theorem buildPrompt_total_recognized_nonempty_fallback
    (title desc ty : String) (a : String) (ha : a ∉ recognizedActions)
    (title2 : String) (h2 : title2 ≠ "") :
    buildPrompt title desc ty "tasks" ≠ ""
    ∧ buildPrompt title desc ty "testcases" ≠ ""
    ∧ buildPrompt title desc ty "criteria" ≠ ""
    ∧ buildPrompt title desc ty "description" ≠ ""
    ∧ buildPrompt title desc ty "bug" ≠ ""
    ∧ buildPrompt title desc ty a = title
    ∧ buildPrompt title2 desc ty a ≠ "" := by
  refine ⟨?_, ?_, ?_, ?_, ?_, buildPrompt_unrecognized title desc ty a ha, ?_⟩
  · simp only [buildPrompt, if_pos]
    exact append_right_ne_empty _ _ (by decide)
  · simp only [buildPrompt]
    norm_num
    exact append_right_ne_empty _ _ (by decide)
  · simp only [buildPrompt]
    norm_num
    exact append_left_ne_empty _ _ (by decide)
  · simp only [buildPrompt]
    norm_num
    exact append_right_ne_empty _ _ (by decide)
  · simp only [buildPrompt]
    norm_num
    exact append_left_ne_empty _ _ (by decide)
  · rw [buildPrompt_unrecognized title2 desc ty a ha]
    exact h2

theorem buildPrompt_total_recognized_nonempty_fallback_witness :
    buildPrompt "Add filter" "Let users filter by date" "Story" "tasks" ≠ ""
    ∧ buildPrompt "Add filter" "Let users filter by date" "Story" "testcases" ≠ ""
    ∧ buildPrompt "Add filter" "Let users filter by date" "Story" "criteria" ≠ ""
    ∧ buildPrompt "Add filter" "Let users filter by date" "Story" "description" ≠ ""
    ∧ buildPrompt "Add filter" "Let users filter by date" "Story" "bug" ≠ ""
    ∧ buildPrompt "Add filter" "Let users filter by date" "Story" "unknown" = "Add filter"
    ∧ buildPrompt "T" "Let users filter by date" "Story" "unknown" ≠ "" :=
  buildPrompt_total_recognized_nonempty_fallback "Add filter" "Let users filter by date"
    "Story" "unknown" (by decide) "T" (by decide)

/-- C4 counterexample: an Authorization header that is present with the
empty string as value does not start with "Bearer ", yet the gate passes
the request through to the handler instead of responding 401; the claim as
stated fails at this input. -/
theorem authGate_empty_header_passes :
    strStartsWith "" "Bearer " = false
    ∧ authMiddleware (some "") = none
    ∧ dispatch (some "") Route.analyze (fun _ => ⟨200, RespBody.successFlag⟩) =
        ⟨200, RespBody.successFlag⟩ := by
  exact ⟨by decide, by decide, by decide⟩

/-- C4 (amended): if an Authorization header is present, non-empty and does
not start with "Bearer ", the gate responds 401 with a JSON error body and
the route handler is never invoked; otherwise — header starting with
"Bearer ", header entirely absent, or header present but empty — the
request is passed through to the handler. -/
theorem authGate_rejects_malformed_nonempty_header
    (a b : String) (r : Route) (handler : Unit → HttpOut)
    (ha1 : a ≠ "") (ha2 : strStartsWith a "Bearer " = false)
    (hb : strStartsWith b "Bearer " = true) (hr : routeHasAuthGate r = true) :
    authMiddleware (some a) = some ⟨401, RespBody.err "Invalid auth format"⟩
    ∧ dispatch (some a) r handler = ⟨401, RespBody.err "Invalid auth format"⟩
    ∧ dispatch (some b) r handler = handler ()
    ∧ authMiddleware none = none
    ∧ dispatch none r handler = handler ()
    ∧ dispatch (some "") r handler = handler () := by
  have hrej : authMiddleware (some a) = some ⟨401, RespBody.err "Invalid auth format"⟩ := by
    simp [authMiddleware, ha1, ha2]
  have hpass : authMiddleware (some b) = none := by
    simp [authMiddleware, hb]
  refine ⟨hrej, ?_, ?_, rfl, ?_, ?_⟩
  · simp [dispatch, hr, hrej]
  · simp [dispatch, hr, hpass]
  · simp [dispatch, hr, authMiddleware]
  · simp [dispatch, hr, authMiddleware]

theorem authGate_rejects_malformed_nonempty_header_witness :
    authMiddleware (some "Token abc") = some ⟨401, RespBody.err "Invalid auth format"⟩
    ∧ dispatch (some "Token abc") Route.analyze (fun _ => ⟨200, RespBody.successFlag⟩) =
        ⟨401, RespBody.err "Invalid auth format"⟩
    ∧ dispatch (some "Bearer abc") Route.analyze (fun _ => ⟨200, RespBody.successFlag⟩) =
        (fun _ => (⟨200, RespBody.successFlag⟩ : HttpOut)) ()
    ∧ authMiddleware none = none
    ∧ dispatch none Route.analyze (fun _ => ⟨200, RespBody.successFlag⟩) =
        (fun _ => (⟨200, RespBody.successFlag⟩ : HttpOut)) ()
    ∧ dispatch (some "") Route.analyze (fun _ => ⟨200, RespBody.successFlag⟩) =
        (fun _ => (⟨200, RespBody.successFlag⟩ : HttpOut)) () :=
  authGate_rejects_malformed_nonempty_header "Token abc" "Bearer abc" Route.analyze
    (fun _ => ⟨200, RespBody.successFlag⟩) (by decide) (by decide) (by decide) rfl

/-- C5: every route except update-description registers the auth gate; a
request whose Authorization header is the malformed "Token abc" is rejected
401 before the handler on every gated route, and is processed normally by
the update-description route. -/
theorem auth_gate_wiring
    (handler : Unit → HttpOut) (r : Route) (hr : routeHasAuthGate r = true) :
    routeHasAuthGate Route.getIssue = true
    ∧ routeHasAuthGate Route.analyze = true
    ∧ routeHasAuthGate Route.createTasks = true
    ∧ routeHasAuthGate Route.createTestcases = true
    ∧ routeHasAuthGate Route.updateDescription = false
    ∧ dispatch (some "Token abc") r handler = ⟨401, RespBody.err "Invalid auth format"⟩
    ∧ dispatch (some "Token abc") Route.updateDescription handler = handler () := by
  have hrej : authMiddleware (some "Token abc") =
      some ⟨401, RespBody.err "Invalid auth format"⟩ := by decide
  refine ⟨rfl, rfl, rfl, rfl, rfl, ?_, rfl⟩
  simp [dispatch, hr, hrej]

theorem auth_gate_wiring_witness :
    routeHasAuthGate Route.getIssue = true
    ∧ routeHasAuthGate Route.analyze = true
    ∧ routeHasAuthGate Route.createTasks = true
    ∧ routeHasAuthGate Route.createTestcases = true
    ∧ routeHasAuthGate Route.updateDescription = false
    ∧ dispatch (some "Token abc") Route.createTasks (fun _ => ⟨200, RespBody.successFlag⟩) =
        ⟨401, RespBody.err "Invalid auth format"⟩
    ∧ dispatch (some "Token abc") Route.updateDescription (fun _ => ⟨200, RespBody.successFlag⟩) =
        (fun _ => (⟨200, RespBody.successFlag⟩ : HttpOut)) () :=
  auth_gate_wiring (fun _ => ⟨200, RespBody.successFlag⟩) Route.createTasks rfl

end JiraAssistant
namespace JiraAssistant

/-- C6: on a successful upstream fetch, the response is a 200 whose body is
the five fields key, id, type, title and the extracted description; the
extracted description is the text of the first text node of the first
paragraph of the rich-document field, and is the empty string — without
throwing — whenever the description, its content, the first paragraph
content or its text is absent or empty. -/
theorem getIssue_success_body_and_description
    (k : String) (hk : k ≠ "") (issue : JiraIssueResponse)
    (ps : List ParaNode) (tns : List TextNode) (t : String) :
    getIssueHandler (some k) (some issue) =
      ⟨200, RespBody.issueBody issue.key issue.id issue.fields.issuetypeName
        issue.fields.summary (extractDescription issue.fields.description)⟩
    ∧ extractDescription none = ""
    ∧ extractDescription (some ⟨none⟩) = ""
    ∧ extractDescription (some ⟨some []⟩) = ""
    ∧ extractDescription (some ⟨some (⟨none⟩ :: ps)⟩) = ""
    ∧ extractDescription (some ⟨some (⟨some []⟩ :: ps)⟩) = ""
    ∧ extractDescription (some ⟨some (⟨some (⟨none⟩ :: tns)⟩ :: ps)⟩) = ""
    ∧ extractDescription (some ⟨some (⟨some (⟨some t⟩ :: tns)⟩ :: ps)⟩) = t := by
  refine ⟨?_, rfl, rfl, rfl, rfl, rfl, rfl, rfl⟩
  simp [getIssueHandler, truthy, hk]

theorem getIssue_success_body_and_description_witness :
    getIssueHandler (some "PROJ-1") (some ⟨"10001", "PROJ-1", ⟨"Login", some ⟨some []⟩, "Story"⟩⟩) =
      ⟨200, RespBody.issueBody "PROJ-1" "10001" "Story" "Login"
        (extractDescription (some ⟨some []⟩))⟩
    ∧ extractDescription none = ""
    ∧ extractDescription (some ⟨none⟩) = ""
    ∧ extractDescription (some ⟨some []⟩) = ""
    ∧ extractDescription (some ⟨some (⟨none⟩ :: [])⟩) = ""
    ∧ extractDescription (some ⟨some (⟨some []⟩ :: [])⟩) = ""
    ∧ extractDescription (some ⟨some (⟨some (⟨none⟩ :: [])⟩ :: [])⟩) = ""
    ∧ extractDescription (some ⟨some (⟨some (⟨some "hello"⟩ :: [])⟩ :: [])⟩) = "hello" :=
  getIssue_success_body_and_description "PROJ-1" (by decide)
    ⟨"10001", "PROJ-1", ⟨"Login", some ⟨some []⟩, "Story"⟩⟩ [] [] "hello"

/-- C7: generate throws without issuing a remote call when neither
deployment env var is set; when a deployment is configured and the remote
call fails the error is propagated; when it succeeds the result is the
first choice message text, and the empty string when the choices array is
absent or empty. -/
theorem generate_deployment_and_choices
    (envN : GenEnv) (h1 : envN.azureOpenaiDeploymentName = none)
    (h2 : envN.azureOpenaiDeployment = none) (apiAny : Option ChatCompletion)
    (env : GenEnv)
    (hd : truthy (if truthy env.azureOpenaiDeploymentName then env.azureOpenaiDeploymentName
        else env.azureOpenaiDeployment) = true)
    (t : String) (restChoices : List ChatChoice) :
    generate envN apiAny = (false, GenResult.missingDeployment)
    ∧ generate env none = (true, GenResult.remoteError)
    ∧ generate env (some ⟨none⟩) = (true, GenResult.ok "")
    ∧ generate env (some ⟨some []⟩) = (true, GenResult.ok "")
    ∧ generate env (some ⟨some (⟨some ⟨some t⟩⟩ :: restChoices)⟩) = (true, GenResult.ok t) := by
  refine ⟨?_, ?_, ?_, ?_, ?_⟩
  · simp [generate, h1, h2, truthy]
  · simp [generate, hd]
  · simp [generate, hd]
  · simp [generate, hd]
  · simp [generate, hd]

theorem generate_deployment_and_choices_witness :
    generate ⟨none, none⟩ none = (false, GenResult.missingDeployment)
    ∧ generate ⟨some "gpt4", none⟩ none = (true, GenResult.remoteError)
    ∧ generate ⟨some "gpt4", none⟩ (some ⟨none⟩) = (true, GenResult.ok "")
    ∧ generate ⟨some "gpt4", none⟩ (some ⟨some []⟩) = (true, GenResult.ok "")
    ∧ generate ⟨some "gpt4", none⟩ (some ⟨some (⟨some ⟨some "out"⟩⟩ :: [])⟩) =
        (true, GenResult.ok "out") :=
  generate_deployment_and_choices ⟨none, none⟩ rfl rfl none ⟨some "gpt4", none⟩
    (by decide) "out" []

/-- C8: update-description answers 400 with an error body and issues no
upstream call whenever issueKey or description is falsy — in particular
when description is present but the empty string — and every update call it
ever issues carries a non-empty description text, so the endpoint can never
clear a description. -/
theorem updateDescription_rejects_falsy_never_clears
    (updateOk upd2 : Bool) (k : String) (_hk : k ≠ "") (k2 d2 k0 d0 : Option String)
    (key txt : String)
    (hmem : JiraCall.updateIssue key txt ∈ (updateDescriptionHandler upd2 k0 d0).1) :
    updateDescriptionHandler updateOk (some k) (some "") =
      ([], ⟨400, RespBody.err "Invalid payload"⟩)
    ∧ updateDescriptionHandler updateOk k2 none = ([], ⟨400, RespBody.err "Invalid payload"⟩)
    ∧ updateDescriptionHandler updateOk none d2 = ([], ⟨400, RespBody.err "Invalid payload"⟩)
    ∧ txt ≠ "" := by
  refine ⟨by simp [updateDescriptionHandler, truthy], by simp [updateDescriptionHandler, truthy],
    by simp [updateDescriptionHandler, truthy], ?_⟩
  by_cases hv : (!truthy k0 || !truthy d0) = true
  · rw [updateDescriptionHandler, if_pos hv] at hmem
    simp at hmem
  · rw [updateDescriptionHandler, if_neg hv] at hmem
    have hd0 : truthy d0 = true := by
      rcases Bool.not_eq_true _ |>.symm ▸ hv with _
      by_contra hc
      apply hv
      simp [Bool.eq_false_iff.mpr hc]
    cases d0 with
    | none => simp [truthy] at hd0
    | some s =>
        have hs : s ≠ "" := by simpa [truthy] using hd0
        cases upd2 <;> simp [jsStr] at hmem <;> rw [hmem.2] <;> exact hs

theorem updateDescription_rejects_falsy_never_clears_witness :
    updateDescriptionHandler true (some "PROJ-1") (some "") =
      ([], ⟨400, RespBody.err "Invalid payload"⟩)
    ∧ updateDescriptionHandler true (some "PROJ-1") none =
      ([], ⟨400, RespBody.err "Invalid payload"⟩)
    ∧ updateDescriptionHandler true none (some "text") =
      ([], ⟨400, RespBody.err "Invalid payload"⟩)
    ∧ "new text" ≠ "" :=
  updateDescription_rejects_falsy_never_clears true true "PROJ-1" (by decide)
    (some "PROJ-1") (some "text") (some "PROJ-1") (some "new text") "PROJ-1" "new text"
    (List.mem_cons_self _ _)

/-- C9: the create-testcases handler never reads the steps field: every
create call it issues carries no description and issue type Test, and two
requests that agree on everything except the steps values of their entries
produce the same sequence of upstream calls and the same response. -/
theorem createTestcases_ignores_steps
    (tr : Tracker) (key : Option String) (tcs1 tcs2 : List TestCaseEntry)
    (htitles : tcs1.map TestCaseEntry.title = tcs2.map TestCaseEntry.title)
    (tr2 : Tracker) (k : String) (hk : k ≠ "") (tcs : List TestCaseEntry)
    (p s : String) (d : Option String) (it : String)
    (hmem : JiraCall.createIssue p s d it ∈ (createTestcasesHandler tr2 (some k) (some tcs)).1) :
    createTestcasesHandler tr key (some tcs1) = createTestcasesHandler tr key (some tcs2)
    ∧ d = none ∧ it = "Test" := by
  refine ⟨?_, ?_⟩
  · simp only [createTestcasesHandler, Option.getD_some, Option.isNone_some, Bool.or_false]
    rw [createTestcasesLoop_titles_only tr (projectKeyOf (jsStr key)) (jsStr key)
      tcs1 tcs2 0 htitles]
  · rw [createTestcasesHandler_calls tr2 k hk tcs] at hmem
    exact (createTestcasesLoop_create_shape tr2 (projectKeyOf k) k tcs 0 p s d it hmem).2

theorem createTestcases_ignores_steps_witness :
    createTestcasesHandler ⟨fun _ => some "NEW-1", fun _ => true⟩ (some "PROJ-1")
        (some [⟨"TC1", [⟨"step A", "expected A"⟩]⟩]) =
      createTestcasesHandler ⟨fun _ => some "NEW-1", fun _ => true⟩ (some "PROJ-1")
        (some [⟨"TC1", []⟩])
    ∧ none = (none : Option String) ∧ "Test" = "Test" :=
  createTestcases_ignores_steps ⟨fun _ => some "NEW-1", fun _ => true⟩ (some "PROJ-1")
    [⟨"TC1", [⟨"step A", "expected A"⟩]⟩] [⟨"TC1", []⟩] rfl
    ⟨fun _ => some "NEW-1", fun _ => true⟩ "PROJ-1" (by decide) [⟨"TC1", []⟩]
    (projectKeyOf "PROJ-1") "TC1" none "Test" (List.mem_cons_self _ _)

/-- C10: a POST analyze body with a truthy title and action but no
description still proceeds, and for the actions tasks and bug — the ones
that interpolate the description — the prompt handed to the generation
client contains the literal substring "undefined" where the description
text would go. -/
theorem analyze_missing_description_interpolates_undefined
    (title : String) (ht : title ≠ "") (oty : Option String)
    (act : String) (hact : act ≠ "") :
    analyzeHandler (some title) none oty (some act) ≠ AnalyzeStep.badRequest
    ∧ analyzeHandler (some title) none oty (some "tasks") =
        AnalyzeStep.callGenerate (buildPrompt title "undefined" (jsStr oty) "tasks")
    ∧ containsSubstring (buildPrompt title "undefined" (jsStr oty) "tasks") "undefined"
    ∧ analyzeHandler (some title) none oty (some "bug") =
        AnalyzeStep.callGenerate (buildPrompt title "undefined" (jsStr oty) "bug")
    ∧ containsSubstring (buildPrompt title "undefined" (jsStr oty) "bug") "undefined" := by
  refine ⟨?_, ?_, ?_, ?_, ?_⟩
  · simp [analyzeHandler, truthy, ht, hact]
  · simp [analyzeHandler, truthy, ht, jsStr]
  · refine ⟨"\nBreak this Jira " ++ jsStr oty ++ " into implementation tasks.\n\nRules:\nReturn ONLY valid JSON:\n\x7b\n  \"tasks\": [\n    \x7b \"title\": \"\", \"description\": \"\" \x7d\n  ]\n\x7d\n\nTitle: " ++ title ++ "\nDescription: ", "\n", ?_⟩
    simp [buildPrompt]
  · simp [analyzeHandler, truthy, ht, jsStr]
  · refine ⟨"Summarize this Jira bug clearly: ", "", ?_⟩
    simp [buildPrompt]

theorem analyze_missing_description_interpolates_undefined_witness :
    analyzeHandler (some "Add filter") none (some "Story") (some "criteria") ≠
        AnalyzeStep.badRequest
    ∧ analyzeHandler (some "Add filter") none (some "Story") (some "tasks") =
        AnalyzeStep.callGenerate (buildPrompt "Add filter" "undefined" (jsStr (some "Story")) "tasks")
    ∧ containsSubstring (buildPrompt "Add filter" "undefined" (jsStr (some "Story")) "tasks")
        "undefined"
    ∧ analyzeHandler (some "Add filter") none (some "Story") (some "bug") =
        AnalyzeStep.callGenerate (buildPrompt "Add filter" "undefined" (jsStr (some "Story")) "bug")
    ∧ containsSubstring (buildPrompt "Add filter" "undefined" (jsStr (some "Story")) "bug")
        "undefined" :=
  analyze_missing_description_interpolates_undefined "Add filter" (by decide) (some "Story")
    "criteria" (by decide)

end JiraAssistant
